import Mathlib

/-!
Verification of the page-processor detection core (python/page-processor).

Shallow embedding conventions:
* Images are rational-valued rasters `Img` (list of rows); Python/numpy
  float64 arithmetic is modelled over `ℚ`.
* Calls into the external image-processing library (OpenCV / numpy
  primitives such as Canny, Gaussian blur, INTER_AREA resize, Otsu
  binarization, HoughLinesP, contour extraction, polynomial fitting,
  atan2 / hypot / sqrt) are fields of a collaborator record `CV`; the
  repository's own code is translated literally on top of it.
* `int(x)` on a nonnegative float is modelled by natural division /
  `Int.floor`; Python's `round` (banker's rounding) is modelled as
  `⌊q + 1/2⌋`, which agrees with it except at exact .5 ties — no claim
  below depends on tie behaviour.
-/

namespace PageProc

/-- Python `round` on a float, up to banker's-rounding ties. -/
def pyround (q : ℚ) : ℤ := ⌊q + 1/2⌋

/-- `max lo (min v hi)`-style clamping used throughout the source. -/
def iclamp (lo hi v : ℤ) : ℤ := max lo (min v hi)

/-- `np.mean` of a 1-D list (0 for the empty list, where numpy yields NaN;
no modelled call site reaches the empty case). -/
def meanList (l : List ℚ) : ℚ := l.sum / l.length

/-- `np.var`-style population variance of a 1-D list. -/
def varianceList (l : List ℚ) : ℚ :=
  meanList (l.map (fun x => (x - meanList l) ^ 2))

/-- `np.max` / `cv2.reduce(..., REDUCE_MAX)` of a list; 0 on the empty list
(numpy raises there — call sites that can reach an empty reduction are
modelled explicitly as failures). -/
def listMax (l : List ℚ) : ℚ := l.foldl max (l.headD 0)

/-- `np.min` of a list, 0 on the empty list. -/
def listMin (l : List ℚ) : ℚ := l.foldl min (l.headD 0)

/-- `np.median`: middle element of the sorted list, or the average of the
two middle elements for an even length (0 for the empty list). -/
def medianList (l : List ℚ) : ℚ :=
  let s := l.mergeSort (· ≤ ·)
  let n := s.length
  if n = 0 then 0
  else if n % 2 = 1 then s.getD (n / 2) 0
  else (s.getD (n / 2 - 1) 0 + s.getD (n / 2) 0) / 2

/-- `np.linspace a b n`: `n` evenly spaced samples from `a` to `b`. -/
def linspace (a b : ℚ) (n : ℕ) : List ℚ :=
  (List.range n).map (fun i => a + (b - a) * i / ((n : ℚ) - 1))

/-- A grayscale raster: a list of rows of rational pixel values. -/
structure Img where
  rows : List (List ℚ)
deriving DecidableEq

/-- Number of rows (`shape[0]`). -/
def Img.height (g : Img) : ℕ := g.rows.length

/-- Number of columns (`shape[1]`, width of the first row). -/
def Img.width (g : Img) : ℕ := (g.rows.headD []).length

/-- Column `j` of the raster (out-of-range entries read as 0). -/
def Img.col (g : Img) (j : ℕ) : List ℚ := g.rows.map (fun r => r.getD j 0)

/-- Column slice `a[:, lo:hi]` (nonnegative indices). -/
def Img.colSlice (g : Img) (lo hi : ℕ) : Img :=
  ⟨g.rows.map (fun r => (r.drop lo).take (hi - lo))⟩

/-- Row slice `a[lo:hi, :]` (nonnegative indices). -/
def Img.rowSlice (g : Img) (lo hi : ℕ) : Img :=
  ⟨(g.rows.drop lo).take (hi - lo)⟩

/-- Row stepping `a[::step, :]`. -/
def Img.rowStep (g : Img) (step : ℕ) : Img :=
  ⟨((List.range g.rows.length).filter (fun i => i % step = 0)).map
      (fun i => g.rows.getD i [])⟩

/-- Per-column sums `np.sum(a, axis=0)`. -/
def Img.colSums (g : Img) : List ℚ :=
  (List.range g.width).map (fun j => (g.col j).sum)

/-- Per-column means `np.mean(a, axis=0)`. -/
def Img.colMeans (g : Img) : List ℚ :=
  (List.range g.width).map (fun j => meanList (g.col j))

/-- Sum of all entries `np.sum(a)`. -/
def Img.sum2d (g : Img) : ℚ := (g.rows.map List.sum).sum

/-- Number of entries of the raster. -/
def Img.count2d (g : Img) : ℕ := (g.rows.map List.length).sum

/-- Mean of all entries `np.mean(a)` (0 when empty; numpy yields NaN there,
and every modelled comparison against a NaN mean is false, matching 0 on
the nonnegative quantities compared). -/
def Img.mean2d (g : Img) : ℚ := g.sum2d / g.count2d

/-- `np.mean(a > 0)`: fraction of strictly positive entries. -/
def Img.fracPos (g : Img) : ℚ :=
  ((g.rows.map (fun r => ((r.filter (fun v => 0 < v)).length : ℚ))).sum) / g.count2d

/-- Elementwise map. -/
def Img.pxMap (g : Img) (f : ℚ → ℚ) : Img := ⟨g.rows.map (List.map f)⟩

/-- `np.std(a)^2`, the population variance of all entries. -/
def Img.variance2d (g : Img) : ℚ :=
  (g.pxMap (fun x => (x - g.mean2d) ^ 2)).sum2d / g.count2d

/-- All-white raster (`255` everywhere), `w` columns by `h` rows. -/
def allWhite (w h : ℕ) : Img := ⟨List.replicate h (List.replicate w 255)⟩

/-- External image-processing collaborator (OpenCV / numpy primitives the
core calls but does not implement; see spec §6).  Detector models are
parametrised over it; theorems hold for every implementation unless they
state specific facts about it as hypotheses. -/
structure CV where
  /-- `cv2.resize(gray, (nw, nh), INTER_AREA)`. -/
  resize : Img → ℕ → ℕ → Img
  /-- `cv2.GaussianBlur` of a 1-row image with odd kernel width `k`. -/
  blur1d : List ℚ → ℕ → List ℚ
  /-- `cv2.Canny(gray, 50, 150)` edge map (0 / 255 valued). -/
  canny : Img → Img
  /-- `cv2.threshold(gray, 0, 255, THRESH_BINARY_INV + THRESH_OTSU)`. -/
  otsuInv : Img → Img
  /-- `cv2.dilate` with a `kw × kh` rectangular structuring element. -/
  dilate : Img → ℕ → ℕ → Img
  /-- `cv2.morphologyEx(..., MORPH_OPEN)` with a `kw × kh` rectangle. -/
  morphOpen : Img → ℕ → ℕ → Img
  /-- `cv2.HoughLinesP dilated rho=1 theta=π/180 threshold minLineLength
  maxLineGap`, as a list of `(x1, y1, x2, y2)` segments. -/
  houghP : Img → ℕ → ℕ → ℕ → List (ℤ × ℤ × ℤ × ℤ)
  /-- `np.arctan2(dy, dx) * 180 / π`. -/
  atan2deg : ℚ → ℚ → ℚ
  /-- `np.hypot dx dy`. -/
  hypot : ℚ → ℚ → ℚ
  /-- `np.sqrt`. -/
  sqrtQ : ℚ → ℚ
  /-- `np.percentile(sample, 90, axis=0)`: per-column 90th percentile. -/
  pct90cols : Img → List ℚ
  /-- `cv2.findContours(..., RETR_EXTERNAL, CHAIN_APPROX_SIMPLE)`:
  each contour as its list of `(x, y)` points. -/
  findContours : Img → List (List (ℤ × ℤ))
  /-- `np.polyfit(x, y, 2)` restricted to its leading coefficient;
  `none` models the caught rank-deficiency failure path. -/
  polyfit2 : List (ℤ × ℤ) → Option ℚ
  /-- `cv2.warpAffine` with `cv2.getRotationMatrix2D(center, angle, 1.0)`
  and zero border: rotate the raster by `angle` degrees about its center. -/
  warpRot : Img → ℚ → Img

/-- `_smooth_1d(values, kernel_size)` (detection.py / split.py): no-op on
empty input, else Gaussian blur with kernel `max 3 kernel` made odd. -/
def smooth1d (cv : CV) (values : List ℚ) (kernel : ℕ) : List ℚ :=
  if values = [] then values
  else
    let k := max 3 kernel
    let k := if k % 2 = 0 then k + 1 else k
    cv.blur1d values k

/-- `_resize_for_analysis(gray, max_dim)`: unchanged with scale 1 when small
enough, else area-resize so the larger dimension equals `max_dim`. -/
def resizeForAnalysis (cv : CV) (gray : Img) (maxDim : ℕ) : Img × ℚ :=
  let h := gray.height
  let w := gray.width
  if max h w ≤ maxDim then (gray, 1)
  else
    let scale : ℚ := (maxDim : ℚ) / (max h w : ℚ)
    let nw := max 1 (pyround ((w : ℚ) * scale)).toNat
    let nh := max 1 (pyround ((h : ℚ) * scale)).toNat
    (cv.resize gray nw nh, scale)

/-!  ## Skew estimation (detection.py `_detect_skew_hough`,
stages/deskew.py `detect_skew_hough` / `detect_skew_projection` /
`detect_deskew`, detection.py `detect_skew_angle`)  -/

/-- An `(angle, confidence)` sub-estimator result. -/
structure SkewSub where
  angle : ℚ
  confidence : ℚ
deriving DecidableEq

/-- Total length of a list of accepted `(angle, length)` segment pairs. -/
def totalLen (pairs : List (ℚ × ℚ)) : ℚ := (pairs.map Prod.snd).sum

/-- Length-weighted mean of the segment angles. -/
def weightedMeanAngle (pairs : List (ℚ × ℚ)) : ℚ :=
  ((pairs.map (fun p => p.1 * p.2)).sum) / totalLen pairs

/-- detection.py lines 53–66: per Hough segment, skip `|dx| < 1`
(near-vertical), compute the text-line angle via `arctan2` and skip it if
it exceeds `max_angle`, keep `(angle, np.hypot dx dy)`. -/
def wholeAccept (cv : CV) (segs : List (ℤ × ℤ × ℤ × ℤ)) (maxAngle : ℚ) :
    List (ℚ × ℚ) :=
  segs.filterMap (fun s =>
    let dx : ℚ := ((s.2.2.1 : ℚ) - (s.1 : ℚ))
    let dy : ℚ := ((s.2.2.2 : ℚ) - (s.2.1 : ℚ))
    if |dx| < 1 then none
    else
      let angle := cv.atan2deg dy dx
      if maxAngle < |angle| then none
      else some (angle, cv.hypot dx dy))

/-- detection.py lines 71–75: length-weighted mean of the accepted angles,
falling back to the unweighted median when the total length is `≤ 0`. -/
def lineAngleWhole (pairs : List (ℚ × ℚ)) : ℚ :=
  if totalLen pairs ≤ 0 then medianList (pairs.map Prod.fst)
  else weightedMeanAngle pairs

/-- detection.py lines 79–84 with `s` standing for
`float(np.std(angles))`: blend of angle-consistency (`1 − s/4`, clamped
`≥ 0`) at weight 0.7 and count adequacy (`min(1, n/15)`) at weight 0.3,
clamped into `[0, 1]`. -/
def houghConfWhole (s : ℚ) (n : ℕ) : ℚ :=
  let consistency := max 0 (1 - s / 4)
  let count_score := min 1 ((n : ℚ) / 15)
  min 1 (max 0 (consistency * (7/10) + count_score * (3/10)))

/-- `np.std(angles) if len(angles) > 1 else 0.0`, the square root taken by
the external numerics (`CV.sqrtQ`). -/
def houghStd (cv : CV) (angles : List ℚ) : ℚ :=
  if 1 < angles.length then cv.sqrtQ (varianceList angles) else 0

/-- The Hough segments seen by the whole-page estimator: Canny edges,
dilation with a `max 10 (w/30) × 1` rectangle, probabilistic Hough with
`threshold=100, minLineLength=max 30 (w/8), maxLineGap=max 10 (w/20)`. -/
def wholeLines (cv : CV) (gray : Img) : List (ℤ × ℤ × ℤ × ℤ) :=
  let w := gray.width
  let edges := cv.canny gray
  let dilated := cv.dilate edges (max 10 (w / 30)) 1
  cv.houghP dilated 100 (max 30 (w / 8)) (max 10 (w / 20))

/-- The accepted `(angle, length)` pairs of the whole-page estimator. -/
def wholePairs (cv : CV) (gray : Img) (maxAngle : ℚ) : List (ℚ × ℚ) :=
  wholeAccept cv (wholeLines cv gray) maxAngle

/-- detection.py `_detect_skew_hough(gray, max_angle)`: `(0,0)` for tiny
inputs, no Hough lines, or no accepted segment; otherwise the *negated*
aggregated text-line angle together with the blended confidence. -/
def detect_skew_hough_whole (cv : CV) (gray : Img) (maxAngle : ℚ) : ℚ × ℚ :=
  if gray.height < 10 ∨ gray.width < 10 then (0, 0)
  else
    let lines := wholeLines cv gray
    if lines = [] then (0, 0)
    else
      let pairs := wholeAccept cv lines maxAngle
      if pairs = [] then (0, 0)
      else
        let line_angle := lineAngleWhole pairs
        let conf := houghConfWhole (houghStd cv (pairs.map Prod.fst)) pairs.length
        (-line_angle, conf)

/-- stages/deskew.py lines 173–187: the stage variant of the segment
filter (`dx`, `dy` stay integers; length `sqrt(dx² + dy²)`; keep
`|angle| ≤ max_angle`). -/
def stageAccept (cv : CV) (segs : List (ℤ × ℤ × ℤ × ℤ)) (maxAngle : ℚ) :
    List (ℚ × ℚ) :=
  segs.filterMap (fun s =>
    let dx : ℤ := s.2.2.1 - s.1
    let dy : ℤ := s.2.2.2 - s.2.1
    if |dx| < 1 then none
    else
      let angle := cv.atan2deg (dy : ℚ) (dx : ℚ)
      let length := cv.sqrtQ ((dx : ℚ) ^ 2 + (dy : ℚ) ^ 2)
      if |angle| ≤ maxAngle then some (angle, length) else none)

/-- stages/deskew.py lines 193–197: weighted mean, median fallback when the
total length is exactly 0. -/
def lineAngleStage (pairs : List (ℚ × ℚ)) : ℚ :=
  if totalLen pairs = 0 then medianList (pairs.map Prod.fst)
  else weightedMeanAngle pairs

/-- stages/deskew.py lines 199–206 with `s` for `np.std(angles)`:
consistency uses `1 − s/5`, count adequacy `min(1, n/20)`, no outer
clamp. -/
def houghConfStage (s : ℚ) (n : ℕ) : ℚ :=
  let consistency := max 0 (1 - s / 5)
  let count_score := min 1 ((n : ℚ) / 20)
  consistency * (7/10) + count_score * (3/10)

/-- The Hough segments seen by the stage estimator (kernel `w/30 × 1`,
`minLineLength = w/8`, `maxLineGap = w/20`, no lower bounds). -/
def stageLines (cv : CV) (gray : Img) : List (ℤ × ℤ × ℤ × ℤ) :=
  let w := gray.width
  let edges := cv.canny gray
  let dilated := cv.dilate edges (w / 30) 1
  cv.houghP dilated 100 (w / 8) (w / 20)

/-- The accepted pairs of the stage Hough estimator. -/
def stagePairs (cv : CV) (gray : Img) (maxAngle : ℚ) : List (ℚ × ℚ) :=
  stageAccept cv (stageLines cv gray) maxAngle

/-- stages/deskew.py `detect_skew_hough(gray, max_angle)`: the aggregated
text-line angle (NOT negated) and the stage confidence blend. -/
def detect_skew_hough_stage (cv : CV) (gray : Img) (maxAngle : ℚ) : SkewSub :=
  let lines := stageLines cv gray
  if lines = [] then ⟨0, 0⟩
  else
    let pairs := stageAccept cv lines maxAngle
    if pairs = [] then ⟨0, 0⟩
    else
      ⟨lineAngleStage pairs,
       houghConfStage (houghStd cv (pairs.map Prod.fst)) pairs.length⟩

/-- `np.var(np.sum(rotated, axis=1))`: variance of the horizontal
projection of a rotated binary raster. -/
def projScore (cv : CV) (binary : Img) (angle : ℚ) : ℚ :=
  varianceList ((cv.warpRot binary angle).rows.map List.sum)

/-- stages/deskew.py `detect_skew_projection(gray, max_angle)`: coarse
31-step search over `[-max_angle, max_angle]` maximizing `projScore`, fine
21-step refinement within ±1° of the coarse best, confidence
`min(1, (best/median − 1)/0.5)` over the coarse scores, floored at 0. -/
def detect_skew_projection (cv : CV) (gray : Img) (maxAngle : ℚ) : SkewSub :=
  let binary := cv.otsuInv gray
  let coarse := linspace (-maxAngle) maxAngle 31
  let scores := coarse.map (projScore cv binary)
  let best := (coarse.zip scores).foldl
    (fun b p => if b.2 < p.2 then p else b) (0, 0)
  let fine := linspace (best.1 - 1) (best.1 + 1) 21
  let best2 := fine.foldl
    (fun b a =>
      let sc := projScore cv binary a
      if b.2 < sc then (a, sc) else b) best
  let median_score := medianList scores
  let confidence :=
    if median_score = 0 then 0
    else min 1 ((best2.2 / median_score - 1) / (1/2))
  ⟨best2.1, max 0 confidence⟩

/-- stages/deskew.py lines 83–94: `total_weight = Σ confᵢ·wᵢ` with the
normalized fixed weights `0.55` (hough) and `0.45` (projection);
`(0, 0)` when it vanishes, otherwise the confidence-and-weight weighted
angle average `Σ angleᵢ·confᵢ·wᵢ / total_weight` paired with
`total_weight` itself as the fused confidence. -/
def deskewFusedPre (hough proj : SkewSub) : ℚ × ℚ :=
  let wH : ℚ := 11/20
  let wP : ℚ := 9/20
  let total_weight := hough.confidence * wH + proj.confidence * wP
  if total_weight = 0 then (0, 0)
  else
    ((hough.angle * hough.confidence * wH + proj.angle * proj.confidence * wP)
        / total_weight,
     hough.confidence * wH + proj.confidence * wP)

/-- `np.sign` on `ℚ`. -/
def qsign (q : ℚ) : ℚ := if q < 0 then -1 else if q = 0 then 0 else 1

/-- stages/deskew.py lines 96–99: clamp the fused angle to
`±max_angle` and halve the confidence when its magnitude exceeds
`max_angle`. -/
def deskewClamp (pre : ℚ × ℚ) (maxAngle : ℚ) : ℚ × ℚ :=
  if maxAngle < |pre.1| then (qsign pre.1 * maxAngle, pre.2 * (1/2))
  else pre

/-- `round(q, 3)` (Python 3-decimal rounding, modulo half-even ties). -/
def round3 (q : ℚ) : ℚ := (pyround (q * 1000) : ℚ) / 1000

/-- Result record of `detect_deskew` (fields used by the claims). -/
structure DeskewR where
  angle : ℚ
  confidence : ℚ
  hough_used : Bool
  needs_correction : Bool
deriving DecidableEq

/-- stages/deskew.py `detect_deskew(image, min_angle, max_angle)`: run both
sub-estimators, fuse with `deskewFusedPre`, clamp with `deskewClamp`,
round the angle to 3 decimals, cap the confidence at 1; `hough_used` is
true when the hough weighted confidence share is at least the
projection's (Python `max` keeps the first key on ties). -/
def detect_deskew_model (cv : CV) (gray : Img) (min_angle max_angle : ℚ) :
    DeskewR :=
  let hough := detect_skew_hough_stage cv gray max_angle
  let proj := detect_skew_projection cv gray max_angle
  let pre := deskewFusedPre hough proj
  let fin := deskewClamp pre max_angle
  ⟨round3 fin.1, min 1 fin.2,
   ¬ (hough.confidence * (11/20) < proj.confidence * (9/20)),
   min_angle ≤ |fin.1|⟩

/-- detection.py `detect_skew_angle(image)`: grayscale + downscale, bail
out with 0 for near-zero contrast (`np.std < 5`, modelled as
`variance < 25`), then the whole-page Hough estimate guarded by the
confidence/magnitude guardrails. -/
def detect_skew_angle_model (cv : CV) (image : Img) : ℚ :=
  let gray_small := (resizeForAnalysis cv image 1500).1
  if gray_small.variance2d < 25 then 0
  else
    let ac := detect_skew_hough_whole cv gray_small 15
    if ac.2 < 2/5 then 0
    else if 5 < |ac.1| ∧ ac.2 < 7/10 then 0
    else if 10 < |ac.1| then 0
    else ac.1

/-!  ## Curvature scoring (detection.py `detect_curvature`,
stages/dewarp.py `detect_curvature_lines` / `detect_dewarp`)  -/

/-- `cv2.boundingRect` of a contour: `(x, y, w, h)` of the tight axis
box around its points. -/
def boundingRect (pts : List (ℤ × ℤ)) : ℤ × ℤ × ℤ × ℤ :=
  let xs := pts.map Prod.fst
  let ys := pts.map Prod.snd
  let x1 := xs.foldl min (xs.headD 0)
  let x2 := xs.foldl max (xs.headD 0)
  let y1 := ys.foldl min (ys.headD 0)
  let y2 := ys.foldl max (ys.headD 0)
  (x1, y1, x2 - x1 + 1, y2 - y1 + 1)

/-- The text-line candidate filter (`cw > w*0.3 and ch < h*0.1`). -/
def isTextLine (w h : ℕ) (contour : List (ℤ × ℤ)) : Bool :=
  let r := boundingRect contour
  decide ((w : ℚ) * (3/10) < (r.2.2.1 : ℚ) ∧ (r.2.2.2 : ℚ) < (h : ℚ) * (1/10))

/-- Per-contour curvature: skip contours of fewer than 10 points, sort the
points by x, fit a quadratic (external `polyfit`, `none` on the caught
rank-deficiency path) and scale-normalize `|quadratic coefficient| * w`. -/
def contourCurvature (cv : CV) (w : ℕ) (contour : List (ℤ × ℤ)) : Option ℚ :=
  if contour.length < 10 then none
  else
    let sorted := contour.mergeSort (fun p q => p.1 ≤ q.1)
    (cv.polyfit2 sorted).map (fun a => |a| * (w : ℚ))

/-- detection.py `detect_curvature(image)`: downscale, Otsu-binarize,
dilate with a `w/20 × 1` rectangle, extract contours, keep wide-and-short
text-line candidates; fewer than 3 candidates or no usable fit give 0,
otherwise the RAW mean per-line curvature (no ceiling division, no
clamp). -/
def detect_curvature_model (cv : CV) (image : Img) : ℚ :=
  let gray := (resizeForAnalysis cv image 1500).1
  let h := gray.height
  let w := gray.width
  let binary := cv.otsuInv gray
  let dilated := cv.dilate binary (w / 20) 1
  let contours := cv.findContours dilated
  let text_lines := contours.filter (isTextLine w h)
  if text_lines.length < 3 then 0
  else
    let curvatures := text_lines.filterMap (contourCurvature cv w)
    if curvatures = [] then 0
    else meanList curvatures

/-- Result record of `detect_curvature_lines` (stages/dewarp.py). -/
structure CurvR where
  score : ℚ
  confidence : ℚ
  num_lines : ℕ
  avg_curvature : ℚ
  max_curvature : ℚ
deriving DecidableEq

/-- stages/dewarp.py `detect_curvature_lines(gray)`: same candidate
pipeline at full resolution; score `min(1, avg/10)` (empirical ceiling
10), confidence `min(1, n/10)`. -/
def detect_curvature_lines_model (cv : CV) (gray : Img) : CurvR :=
  let h := gray.height
  let w := gray.width
  let binary := cv.otsuInv gray
  let dilated := cv.dilate binary (w / 20) 1
  let contours := cv.findContours dilated
  let text_lines := contours.filter (isTextLine w h)
  if text_lines.length < 3 then ⟨0, 0, 0, 0, 0⟩
  else
    let curvatures := text_lines.filterMap (contourCurvature cv w)
    if curvatures = [] then ⟨0, 0, text_lines.length, 0, 0⟩
    else
      let avg := meanList curvatures
      ⟨min 1 (avg / 10), min 1 ((curvatures.length : ℚ) / 10),
       curvatures.length, avg, listMax curvatures⟩

/-- Result record of `detect_dewarp` (fields relevant to the claims). -/
structure DewarpR where
  needs_dewarp : Bool
  curvature_score : ℚ
  confidence : ℚ
  tool_available : Bool
deriving DecidableEq

/-- stages/dewarp.py `detect_dewarp(image, min_curvature)`: wraps
`detect_curvature_lines`; `needs_dewarp` iff the score reaches
`min_curvature` and the optional dewarp library is available. -/
def detect_dewarp_model (cv : CV) (available : Bool) (min_curvature : ℚ)
    (gray : Img) : DewarpR :=
  let c := detect_curvature_lines_model cv gray
  ⟨decide (min_curvature ≤ c.score) && available, c.score, c.confidence,
   available⟩

/-!  ## Rotation classification (stages/rotation.py)  -/

/-- The four page rotations. -/
inductive Rot
  | r0
  | r90
  | r180
  | r270
deriving DecidableEq

/-- A `{0, 90, 180, 270} → score` mapping (the per-scorer dicts). -/
structure RotScores where
  s0 : ℚ
  s90 : ℚ
  s180 : ℚ
  s270 : ℚ
deriving DecidableEq

/-- Score lookup. -/
def RotScores.get (s : RotScores) : Rot → ℚ
  | Rot.r0 => s.s0
  | Rot.r90 => s.s90
  | Rot.r180 => s.s180
  | Rot.r270 => s.s270

/-- The all-zero score map. -/
def RotScores.zero : RotScores := ⟨0, 0, 0, 0⟩

/-- rotation.py lines 61–78: weighted sum of the three sub-scorer maps
with the fixed weights text `0.5`, edge `0.3`, content `0.2`. -/
def rotCandidates (t e c : RotScores) : RotScores :=
  ⟨t.s0 * (1/2) + e.s0 * (3/10) + c.s0 * (1/5),
   t.s90 * (1/2) + e.s90 * (3/10) + c.s90 * (1/5),
   t.s180 * (1/2) + e.s180 * (3/10) + c.s180 * (1/5),
   t.s270 * (1/2) + e.s270 * (3/10) + c.s270 * (1/5)⟩

/-- `max(candidates, key=candidates.get)` over insertion order
`0, 90, 180, 270`: the first key attaining the maximum. -/
def bestRotation (cand : RotScores) : Rot :=
  let b1 : Rot × ℚ := (Rot.r0, cand.s0)
  let b2 := if b1.2 < cand.s90 then (Rot.r90, cand.s90) else b1
  let b3 := if b2.2 < cand.s180 then (Rot.r180, cand.s180) else b2
  let b4 := if b3.2 < cand.s270 then (Rot.r270, cand.s270) else b3
  b4.1

/-- The three sub-scorers. -/
inductive RMethod
  | text
  | edge
  | content
deriving DecidableEq

/-- `max(method_contributions, key=...)` over insertion order
`text, edge, content`: first maximal weighted contribution. -/
def bestMethod (t e c : ℚ) : RMethod :=
  let b1 : RMethod × ℚ := (RMethod.text, t)
  let b2 := if b1.2 < e then (RMethod.edge, e) else b1
  let b3 := if b2.2 < c then (RMethod.content, c) else b2
  b3.1

/-- Result record of `detect_rotation`. -/
structure RotationR where
  rotation : Rot
  confidence : ℚ
  method_used : RMethod
deriving DecidableEq

/-- rotation.py lines 61–103: combine the three sub-scorer maps; winner =
argmax of the weighted sum, confidence = that sum capped at 1,
`method_used` = sub-scorer with the largest weighted contribution to the
winner. -/
def detect_rotation_combine (t e c : RotScores) : RotationR :=
  let cand := rotCandidates t e c
  let best := bestRotation cand
  ⟨best, min 1 (cand.get best),
   bestMethod (t.get best * (1/2)) (e.get best * (3/10)) (c.get best * (1/5))⟩

/-- Row slice `a[-margin:, :]` (Python semantics: `-0` selects the whole
array). -/
def Img.rowTail (g : Img) (margin : ℕ) : Img :=
  if margin = 0 then g else g.rowSlice (g.height - margin) g.height

/-- Column slice `a[:, -margin:]` (Python semantics as above). -/
def Img.colTail (g : Img) (margin : ℕ) : Img :=
  if margin = 0 then g else g.colSlice (g.width - margin) g.width

/-- rotation.py `detect_text_orientation(gray)`: Otsu binarization,
horizontal/vertical morphological opening, dominance ratio of the two
structure masses with top/bottom (resp. left/right) content tie-break. -/
def textOrientation (cv : CV) (gray : Img) : RotScores :=
  let h := gray.height
  let w := gray.width
  let binary := cv.otsuInv gray
  let horizontal := cv.morphOpen binary (w / 20) 1
  let vertical := cv.morphOpen binary 1 (h / 20)
  let h_count := horizontal.sum2d / 255
  let v_count := vertical.sum2d / 255
  let total := h_count + v_count
  if total = 0 then RotScores.zero
  else
    let h_ratio := h_count / total
    let v_ratio := v_count / total
    if v_ratio < h_ratio then
      let top_content := (binary.rowSlice 0 (h / 2)).sum2d
      let bottom_content := (binary.rowSlice (h / 2) binary.height).sum2d
      if bottom_content ≤ top_content then
        ⟨h_ratio, 0, h_ratio * (3/10), 0⟩
      else
        ⟨h_ratio * (1/2), 0, h_ratio * (7/10), 0⟩
    else
      let left_content := (binary.colSlice 0 (w / 2)).sum2d
      let right_content := (binary.colSlice (w / 2) binary.width).sum2d
      if right_content ≤ left_content then
        ⟨0, v_ratio * (3/10), 0, v_ratio⟩
      else
        ⟨0, v_ratio, 0, v_ratio * (3/10)⟩

/-- rotation.py `detect_edge_orientation(gray)`: Canny edge densities of
the four 10%-margin bands, normalized by their maximum (floored at 1),
axis strength comparison with directional tie-break. -/
def edgeOrientation (cv : CV) (gray : Img) : RotScores :=
  let h := gray.height
  let w := gray.width
  let edges := cv.canny gray
  let margin := (min h w) / 10
  let top_density0 := (edges.rowSlice 0 margin).sum2d / ((margin * w : ℕ) : ℚ)
  let bottom_density0 := (edges.rowTail margin).sum2d / ((margin * w : ℕ) : ℚ)
  let left_density0 := (edges.colSlice 0 margin).sum2d / ((margin * h : ℕ) : ℚ)
  let right_density0 := (edges.colTail margin).sum2d / ((margin * h : ℕ) : ℚ)
  let max_density :=
    max (max (max (max top_density0 bottom_density0) left_density0)
      right_density0) 1
  let top_density := top_density0 / max_density
  let bottom_density := bottom_density0 / max_density
  let left_density := left_density0 / max_density
  let right_density := right_density0 / max_density
  let h_strength := (top_density + bottom_density) / 2
  let v_strength := (left_density + right_density) / 2
  if v_strength < h_strength then
    if bottom_density ≤ top_density then
      ⟨h_strength, 0, h_strength * (2/5), 0⟩
    else
      ⟨h_strength * (1/2), 0, h_strength * (7/10), 0⟩
  else
    if right_density ≤ left_density then
      ⟨0, v_strength * (2/5), 0, v_strength⟩
    else
      ⟨0, v_strength * (7/10), 0, v_strength * (1/2)⟩

/-- rotation.py `detect_content_orientation(gray)`: binarized content mass
of the four halves (each normalized by `h*w//2` and by their common
maximum floored at 1); the axis with the larger imbalance wins, the
imbalance sign picks the direction. -/
def contentOrientation (cv : CV) (gray : Img) : RotScores :=
  let h := gray.height
  let w := gray.width
  let binary := cv.otsuInv gray
  let denom : ℚ := ((h * w / 2 : ℕ) : ℚ)
  let top_content0 := (binary.rowSlice 0 (h / 2)).sum2d / denom
  let bottom_content0 := (binary.rowSlice (h / 2) binary.height).sum2d / denom
  let left_content0 := (binary.colSlice 0 (w / 2)).sum2d / denom
  let right_content0 := (binary.colSlice (w / 2) binary.width).sum2d / denom
  let max_content :=
    max (max (max (max top_content0 bottom_content0) left_content0)
      right_content0) 1
  let top_content := top_content0 / max_content
  let bottom_content := bottom_content0 / max_content
  let left_content := left_content0 / max_content
  let right_content := right_content0 / max_content
  let h_diff := |top_content - bottom_content|
  let v_diff := |left_content - right_content|
  if v_diff ≤ h_diff then
    if bottom_content ≤ top_content then ⟨h_diff, 0, 0, 0⟩
    else ⟨0, 0, h_diff, 0⟩
  else
    if right_content ≤ left_content then ⟨0, 0, 0, v_diff⟩
    else ⟨0, v_diff, 0, 0⟩

/-- stages/rotation.py `detect_rotation(image)`: the weighted combination
of the three sub-scorers on the grayscale image. -/
def detect_rotation_model (cv : CV) (gray : Img) : RotationR :=
  detect_rotation_combine (textOrientation cv gray) (edgeOrientation cv gray)
    (contentOrientation cv gray)

/-!  ## Valley/band analysis (detection.py `_best_saddle_valley`,
split.py `norm_low` / `_band_edges`)  -/

/-- `np.maximum.accumulate`. -/
def accumMax : List ℚ → List ℚ
  | [] => []
  | x :: xs => xs.scanl max x

/-- First index in `[lo, hi)` maximizing `scores` (`np.argmax` over the
array with everything outside `[lo, hi)` masked to `-inf`); 0 when the
range is empty, as `np.argmax` returns 0 on an all-`-inf` array. -/
def argmaxFrom (scores : List ℚ) (lo hi : ℕ) : ℕ :=
  match (List.range scores.length).filter
      (fun i => decide (lo ≤ i) && decide (i < hi)) with
  | [] => 0
  | j :: rest =>
    rest.foldl (fun b i => if scores.getD b 0 < scores.getD i 0 then i else b) j

/-- detection.py `_best_saddle_valley(curve)`: deepest dip between the two
flanking running maxima, excluding a `max 5 (n/20)` pad at each end
(shrunk to 1 on short curves); confidence is the dip depth relative to
the lower flanking peak, clamped to `[0, 1]`; degenerate cases give
`(n/2, 0)`.  (The `isfinite` test of the source is vacuous over `ℚ`.) -/
def best_saddle_valley (curve : List ℚ) : ℕ × ℚ :=
  let n := curve.length
  if n < 3 then (n / 2, 0)
  else
    let pad0 := max 5 (n / 20)
    let pad := if n ≤ pad0 * 2 + 1 then 1 else pad0
    let left_max := accumMax curve
    let right_max := (accumMax curve.reverse).reverse
    let left_peak := 0 :: left_max.dropLast
    let right_peak := right_max.drop 1 ++ [0]
    let min_peak := List.zipWith min left_peak right_peak
    let score := List.zipWith (fun mp c => mp - c) min_peak curve
    let idx := argmaxFrom score pad (n - pad)
    let best_score := score.getD idx 0
    let best_peak := min_peak.getD idx 0
    if best_score ≤ 0 ∨ best_peak ≤ 0 then (n / 2, 0)
    else (idx, min 1 (max 0 (best_score / (best_peak + 1/1000000000))))

/-- split.py `norm_low(curve)` (local to `find_gutter_position`): rescale
so the minimum maps to 1 and the maximum to 0; all-zero of the search
width on empty input, all-zero of the curve's length when near-constant. -/
def normLow (region_w : ℕ) (curve : List ℚ) : List ℚ :=
  if curve = [] then List.replicate region_w 0
  else
    let mn := listMin curve
    let mx := listMax curve
    if mx - mn < 1/1000000000 then curve.map (fun _ => 0)
    else curve.map (fun c => (mx - c) / (mx - mn))

/-- The `while left > 0 and mask[left - 1]` descent of `_band_edges`. -/
def extendLeft (mask : List Bool) : ℕ → ℕ
  | 0 => 0
  | j + 1 => if mask.getD j false then extendLeft mask j else j + 1

/-- The `while right < n - 1 and mask[right + 1]` ascent of `_band_edges`
(`fuel` bounds the walk; callers pass the curve length). -/
def extendRight (mask : List Bool) (nmax : ℕ) : ℕ → ℕ → ℕ
  | 0, j => j
  | fuel + 1, j =>
    if j < nmax ∧ mask.getD (j + 1) false = true then
      extendRight mask nmax fuel (j + 1)
    else j

/-- split.py `_band_edges(curve, idx)`: grow left/right from `idx` while
the curve stays below `min + 0.35*(mean − min)`; inclusive index pair.
(`isfinite` guards of the source are vacuous over `ℚ`.) -/
def bandEdges (curve : List ℚ) (idx0 : ℕ) : ℕ × ℕ :=
  if curve = [] then (0, 0)
  else
    let n := curve.length
    let idx := min (n - 1) idx0
    let mean_v := meanList curve
    let min_v := curve.getD idx 0
    if mean_v ≤ 0 ∨ mean_v ≤ min_v then (idx, idx)
    else
      let thresh := min_v + (mean_v - min_v) * (35/100)
      let mask := curve.map (fun v => decide (v ≤ thresh))
      if mask.getD idx false = false then (idx, idx)
      else (extendLeft mask idx, extendRight mask (n - 1) n idx)

/-!  ## Gutter location (split.py `find_gutter_position`)  -/

/-- Elementwise 3-curve combination. -/
def zipWith3 (f : ℚ → ℚ → ℚ → ℚ) (a b c : List ℚ) : List ℚ :=
  List.zipWith (fun x (p : ℚ × ℚ) => f x p.1 p.2) a (b.zip c)

/-- The main body of split.py `find_gutter_position(image)` (everything
after the central-window guard, before the final clamp): search the
central 10–90% of the analysis width; combine normalized inverted-ink,
edge-count and margin-shadow curves (reweighted toward shadow under ink
asymmetry `≥ 2.5`), subtract a soft quadratic center prior, mask a thin
`max 3 (region_w/50)` pad, take the argmax, re-center on the band found
by `bandEdges` on the dominant raw curve, clip into the window, and map
back to original coordinates. -/
def find_gutter_core (cv : CV) (image : Img) : ℤ :=
  let gs := resizeForAnalysis cv image 1500
  let gray_small := gs.1
  let scale := gs.2
  let hs := gray_small.height
  let ws := gray_small.width
  let start := ws / 10
  let endw := ws * 9 / 10
  let region := gray_small.colSlice start endw
    let region_w := region.width
    let proj := (region.pxMap (fun v => 255 - v)).colSums
    let proj_s := smooth1d cv proj (max 9 (region_w / 25))
    let edges := cv.canny gray_small
    let edge_region := edges.colSlice start endw
    let edge_proj := (edge_region.pxMap (fun v => if 0 < v then 1 else 0)).colSums
    let edge_s := smooth1d cv edge_proj (max 9 (region_w / 25))
    let band_h := max 1 (pyround ((hs : ℚ) * (12/100))).toNat
    let top := (region.rowSlice 0 band_h).rowStep 4
    let bot := (⟨region.rows.drop (hs - band_h)⟩ : Img).rowStep 4
    let sample :=
      if top.rows ≠ [] ∧ bot.rows ≠ [] then (⟨top.rows ++ bot.rows⟩ : Img)
      else if top.rows ≠ [] then top
      else if bot.rows ≠ [] then bot
      else if 4 < hs then region.rowStep 4 else region
    let shadow_s := smooth1d cv sample.colMeans (max 11 (region_w / 20))
    let ink_score := normLow region_w proj_s
    let edge_score := normLow region_w edge_s
    let shadow_score :=
      if shadow_s ≠ [] then normLow region_w shadow_s
      else List.replicate region_w 0
    let left_ink := if proj_s ≠ [] then (proj_s.take (region_w / 2)).sum else 0
    let right_ink := if proj_s ≠ [] then (proj_s.drop (region_w / 2)).sum else 0
    let denom := max 1 (min left_ink right_ink)
    let asym_ratio := max left_ink right_ink / denom
    let wts : ℚ × ℚ × ℚ :=
      if (5/2 : ℚ) ≤ asym_ratio then (1/5, 1/5, 3/5) else (9/20, 1/5, 7/20)
    let score := zipWith3
      (fun a b c => a * wts.1 + b * wts.2.1 + c * wts.2.2)
      ink_score edge_score shadow_score
    let center : ℚ := ((region_w : ℚ) - 1) / 2
    let score2 :=
      if 1 < center then
        List.zipWith (fun s i => s - (|(i : ℚ) - center| / center) ^ 2 * (22/100))
          score (List.range score.length)
      else score
    let edge_pad := max 3 (region_w / 50)
    let idx :=
      if edge_pad * 2 < score2.length then
        argmaxFrom score2 edge_pad (score2.length - edge_pad)
      else region_w / 2
    let comp_ink := ink_score.getD idx 0 * wts.1
    let comp_edge := edge_score.getD idx 0 * wts.2.1
    let comp_shadow :=
      if shadow_score ≠ [] then shadow_score.getD idx 0 * wts.2.2 else 0
    let band_curve :=
      if shadow_s ≠ [] ∧ max comp_ink comp_edge + 1/20 ≤ comp_shadow then shadow_s
      else if comp_edge ≤ comp_ink ∧ proj_s ≠ [] then proj_s
      else if edge_s ≠ [] then edge_s
      else proj_s
    let be := bandEdges band_curve idx
    let band_center := (be.1 + be.2) / 2
    let split_small := max (start + 1) (min (start + band_center) (endw - 1))
    pyround ((split_small : ℚ) * (1 / scale))

/-- split.py `find_gutter_position(image)` assembled: the central-window
guard returning the image-centre column, else the band-centred argmax
mapped back to original coordinates (`find_gutter_core`) and clamped into
`[int(0.03·w), int(0.97·w)]`. -/
def find_gutter_model (cv : CV) (image : Img) : ℤ :=
  let w := image.width
  let ws := (resizeForAnalysis cv image 1500).1.width
  let start := ws / 10
  let endw := ws * 9 / 10
  if endw ≤ start + 10 then ((w / 2 : ℕ) : ℤ)
  else
    iclamp ((w * 3 / 100 : ℕ) : ℤ) ((w * 97 / 100 : ℕ) : ℤ)
      (find_gutter_core cv image)

/-!  ## Facing-page classification (detection.py `detect_facing_pages`)  -/

/-- detection.py `detect_facing_pages(image)`: aspect-ratio weak gate,
then the valley/shadow decision ladder over the central 5–95% window,
then centre-strip brightness and edge-density heuristics, then the
gutter-locator-backed fallback.  Returns `none` where the source raises
an uncaught exception: `np.max` over the per-column means of the centre
strip raises `ValueError` when `ws/5 // 2 = 0` makes that strip empty
(every other numpy call on the reached shapes is total, and the shadow
and fallback blocks are `try/except`-wrapped in the source). -/
def detect_facing_pages_model (cv : CV) (image : Img) : Option Bool :=
  let h := image.height
  let w := image.width
  if (w : ℚ) / (h : ℚ) < 21/20 then some false
  else
    let gs := resizeForAnalysis cv image 1500
    let gray_small := gs.1
    let hs := gray_small.height
    let ws := gray_small.width
    let edges := cv.canny gray_small
    let start := ws * 5 / 100
    let endw := ws * 95 / 100
    let ladder : Bool :=
      if start + 10 < endw then
        let region := gray_small.colSlice start endw
        let region_w := region.width
        let proj := (region.pxMap (fun v => 255 - v)).colSums
        let proj_s := smooth1d cv proj (max 9 (region_w / 20))
        let valley_conf := (best_saddle_valley proj_s).2
        let edge_region := edges.colSlice start endw
        let edge_proj :=
          (edge_region.pxMap (fun v => if 0 < v then 1 else 0)).colSums
        let edge_s := smooth1d cv edge_proj (max 9 (region_w / 20))
        let edge_conf := (best_saddle_valley edge_s).2
        let sample := if 4 < hs then region.rowStep 4 else region
        let bg_s := smooth1d cv (cv.pct90cols sample) (max 11 (region_w / 15))
        let mean_bg := if bg_s ≠ [] then meanList bg_s else 0
        let min_bg := if bg_s ≠ [] then listMin bg_s else mean_bg
        let shadow_conf :=
          if 0 < mean_bg then min 1 (max 0 ((mean_bg - min_bg) / mean_bg * 2))
          else 0
        decide (55/100 ≤ valley_conf) || decide (45/100 ≤ shadow_conf) ||
          (decide (35/100 ≤ valley_conf) && decide (25/100 ≤ edge_conf))
      else false
    if ladder then some true
    else
      let center_width := ws / 5
      let center_x := ws / 2
      let center_strip :=
        gray_small.colSlice (center_x - center_width / 2)
          (center_x + center_width / 2)
      if center_strip.width = 0 then none
      else
        let center_brightness := listMax center_strip.colMeans
        let left_strip := gray_small.colSlice 0 center_width
        let right_strip := gray_small.colTail center_width
        let edge_brightness := (left_strip.mean2d + right_strip.mean2d) / 2
        if 20 < center_brightness - edge_brightness then some true
        else
          let center_edges :=
            edges.colSlice (center_x - center_width / 2)
              (center_x + center_width / 2)
          let left_edges := edges.colSlice 0 center_width
          let right_edges := edges.colTail center_width
          let center_density := center_edges.fracPos
          let edge_density := (left_edges.fracPos + right_edges.fracPos) / 2
          if 0 < edge_density ∧ center_density < edge_density * (3/5) then
            some true
          else
            let gutter_x := find_gutter_model cv image
            let gx0 := pyround ((gutter_x : ℚ) * ((ws : ℚ) / (w : ℚ)))
            let gx_s := (max 0 (min ((ws : ℤ) - 1) gx0)).toNat
            let proj_full :=
              smooth1d cv (gray_small.pxMap (fun v => 255 - v)).colSums
                (max 9 (ws / 20))
            let mean_ink := if proj_full ≠ [] then meanList proj_full else 0
            let at_ink :=
              if proj_full ≠ [] then proj_full.getD gx_s 0 else mean_ink
            let white_valley_depth :=
              if 0 < mean_ink then (mean_ink - at_ink) / mean_ink else 0
            let band_h := max 1 (pyround ((hs : ℚ) * (12/100))).toNat
            let top := (gray_small.rowSlice 0 band_h).rowStep 4
            let bot := (⟨gray_small.rows.drop (hs - band_h)⟩ : Img).rowStep 4
            let sample :=
              if top.rows ≠ [] ∧ bot.rows ≠ [] then
                (⟨top.rows ++ bot.rows⟩ : Img)
              else if top.rows ≠ [] then top
              else if bot.rows ≠ [] then bot
              else if 4 < hs then gray_small.rowStep 4 else gray_small
            let shadow_curve := smooth1d cv sample.colMeans (max 11 (ws / 20))
            let mean_sh := if shadow_curve ≠ [] then meanList shadow_curve else 0
            let at_sh :=
              if shadow_curve ≠ [] then shadow_curve.getD gx_s 0 else mean_sh
            let dark_dip := if 0 < mean_sh then (mean_sh - at_sh) / mean_sh else 0
            let win := max 12 (ws / 60)
            let a := gx_s - win
            let b := min ws (gx_s + win)
            let center_ed := if a < b then (edges.colSlice a b).fracPos else 1
            let overall_ed := if edges.count2d ≠ 0 then edges.fracPos else 0
            if 12/100 ≤ white_valley_depth ∧ 0 < overall_ed ∧
                center_ed < overall_ed * (4/5) then some true
            else if 20/100 ≤ white_valley_depth then some true
            else
              let gx_norm := (gutter_x : ℚ) / ((max 1 w : ℕ) : ℚ)
              if 15/100 ≤ gx_norm ∧ gx_norm ≤ 85/100 ∧ 6/100 ≤ dark_dip then
                some true
              else some false

/-!  ## Content bounds (detection.py `detect_content_bounds`)  -/

/-- A detected content box in original coordinates. -/
structure Bounds where
  x : ℤ
  y : ℤ
  width : ℤ
  height : ℤ
deriving DecidableEq

/-- In-place zeroing of a `b`-pixel border (`binary[:b] = 0` etc.). -/
def zeroBorder (g : Img) (b : ℕ) : Img :=
  ⟨(List.range g.rows.length).map (fun i =>
    let r := g.rows.getD i []
    if i < b ∨ g.height - b ≤ i then r.map (fun _ => 0)
    else (List.range r.length).map
      (fun j => if j < b ∨ g.width - b ≤ j then 0 else r.getD j 0))⟩

/-- detection.py `detect_content_bounds(image)`: Otsu-binarize the
downscaled grayscale, zero a `round(1%·min-dim)` border, project to
row/column maxima, reject an empty or sub-10% box, else map back through
the scale factor and clamp into the original image. -/
def detect_content_bounds_model (cv : CV) (image : Img) : Option Bounds :=
  let h := image.height
  let w := image.width
  let gs := resizeForAnalysis cv image 1500
  let binary := cv.otsuInv gs.1
  let border := (pyround ((min binary.height binary.width : ℚ) * (1/100))).toNat
  let binary2 := if 0 < border then zeroBorder binary border else binary
  let row_max := binary2.rows.map listMax
  let col_max := (List.range binary2.width).map (fun j => listMax (binary2.col j))
  let ys := (List.range row_max.length).filter
    (fun i => decide (row_max.getD i 0 ≠ 0))
  let xs := (List.range col_max.length).filter
    (fun j => decide (col_max.getD j 0 ≠ 0))
  if ys = [] ∨ xs = [] then none
  else
    let x1s : ℤ := xs.headD 0
    let x2s : ℤ := xs.getLastD 0
    let y1s : ℤ := ys.headD 0
    let y2s : ℤ := ys.getLastD 0
    let bw_s := x2s - x1s + 1
    let bh_s := y2s - y1s + 1
    if (bw_s : ℚ) < (binary2.width : ℚ) * (1/10) ∨
        (bh_s : ℚ) < (binary2.height : ℚ) * (1/10) then none
    else
      let inv : ℚ := 1 / gs.2
      let x0 := pyround ((x1s : ℚ) * inv)
      let y0 := pyround ((y1s : ℚ) * inv)
      let bw0 := pyround ((bw_s : ℚ) * inv)
      let bh0 := pyround ((bh_s : ℚ) * inv)
      let x := max 0 (min x0 ((w : ℤ) - 1))
      let y := max 0 (min y0 ((h : ℤ) - 1))
      some ⟨x, y, max 1 (min bw0 ((w : ℤ) - x)), max 1 (min bh0 ((h : ℤ) - y))⟩

/-!  ## split.py : `split_facing_pages`  -/

/-- `split_facing_pages(image, gutter_x, overlap)` (split.py): cut the
image into `image[:, :min(gutter_x+overlap, w)]` and
`image[:, max(gutter_x-overlap, 0):]`.  Slice indices are nonnegative at
every modelled call (`0 ≤ gutter_x`, `0 ≤ overlap`), so `Int.toNat` is
faithful to Python slicing. -/
def split_facing_pages (img : Img) (gutter_x : ℤ) (overlap : ℤ) : Img × Img :=
  let w := img.width
  let left_end := min (gutter_x + overlap) (w : ℤ)
  let right_start := max (gutter_x - overlap) 0
  (⟨img.rows.map (fun r => r.take left_end.toNat)⟩,
   ⟨img.rows.map (fun r => r.drop right_start.toNat)⟩)

/-!  ## Concrete collaborator instances used by witnesses and
counterexamples  -/

/-- Selection of a per-method value (the `method_contributions` dict). -/
def methodVal (x y z : ℚ) : RMethod → ℚ
  | RMethod.text => x
  | RMethod.edge => y
  | RMethod.content => z

/-- Weighted contribution of each sub-scorer to a given rotation
(rotation.py lines 85–89). -/
def rotContrib (t e c : RotScores) (r : Rot) : RMethod → ℚ :=
  methodVal (t.get r * (1/2)) (e.get r * (3/10)) (c.get r * (1/5))

/-- A degenerate collaborator: no edges, no lines, no contours; resize
and blur act as identities.  It realizes the behaviour of the external
library on blank inputs. -/
def cvTriv : CV where
  resize := fun g _ _ => g
  blur1d := fun v _ => v
  canny := fun g => g.pxMap (fun _ => 0)
  otsuInv := fun g => g.pxMap (fun _ => 0)
  dilate := fun g _ _ => g
  morphOpen := fun g _ _ => g
  houghP := fun _ _ _ _ => []
  atan2deg := fun _ _ => 0
  hypot := fun _ _ => 0
  sqrtQ := fun _ => 0
  pct90cols := fun g => g.colMeans
  findContours := fun _ => []
  polyfit2 := fun _ => none
  warpRot := fun g _ => g

/-- A collaborator whose line detector reports one long near-horizontal
segment `(0,0) – (100,3)` whose angle the external trigonometry evaluates
to 2° and whose length to 100. -/
def cvSeg : CV :=
  { cvTriv with
    houghP := fun _ _ _ _ => [(0, 0, 100, 3)]
    atan2deg := fun _ _ => 2
    hypot := fun _ _ => 100
    sqrtQ := fun _ => 100 }

/-- A collaborator for the curvature pipeline: three wide, short text-line
contours of 10 points each, whose quadratic fit has leading coefficient
`1/5`. -/
def cvCurv : CV :=
  { cvTriv with
    findContours := fun _ =>
      let c : List (ℤ × ℤ) :=
        [(0, 5), (10, 5), (20, 5), (30, 5), (40, 5),
         (50, 5), (60, 5), (70, 5), (80, 5), (90, 5)]
      [c, c, c]
    polyfit2 := fun _ => some (1/5) }

/-- A collaborator driving `detect_deskew` to a hough sub-result
`(angle 10, confidence 1)` (twenty consistent segments of external angle
10° and length 100) while the projection sub-estimator sees a blank page
(`(0, 0)`). -/
def cvC8 : CV :=
  { cvTriv with
    houghP := fun _ _ _ _ => List.replicate 20 (0, 0, 100, 3)
    atan2deg := fun _ _ => 10
    hypot := fun _ _ => 100
    sqrtQ := fun q => if q = 0 then 0 else 100 }

/-- C10: with `overlap = 0` and a gutter `g ∈ [0, w]`, the left page is
exactly the columns `[0, g)` of every row, the right page exactly the
columns `[g, w)`; the widths sum to `w` and the two slices of each row
recompose it, so every column lands in exactly one page. -/
theorem c10_split_partition (img : Img) (g : ℤ)
    (hg : 0 ≤ g) (hgw : g.toNat ≤ img.width)
    (hrect : ∀ r ∈ img.rows, r.length = img.width) :
    (split_facing_pages img g 0).1.rows = img.rows.map (fun r => r.take g.toNat) ∧
    (split_facing_pages img g 0).2.rows = img.rows.map (fun r => r.drop g.toNat) ∧
    ∀ r ∈ img.rows,
      (r.take g.toNat).length = g.toNat ∧
      (r.drop g.toNat).length = img.width - g.toNat ∧
      r.take g.toNat ++ r.drop g.toNat = r := by
  have hmin : min (g + 0) (img.width : ℤ) = g := by
    have : g + 0 = g := by ring
    rw [this]
    exact min_eq_left (by omega)
  have hmax : max (g - 0) (0 : ℤ) = g := by
    have : g - 0 = g := by ring
    rw [this]
    exact max_eq_left hg
  refine ⟨?_, ?_, ?_⟩
  · simp only [split_facing_pages, hmin]
  · simp only [split_facing_pages, hmax]
  · intro r hr
    have hlen := hrect r hr
    refine ⟨?_, ?_, List.take_append_drop _ _⟩
    · rw [List.length_take, hlen]
      omega
    · rw [List.length_drop, hlen]

/-- Witness for C10 at a concrete 2×3 image split at column 2. -/
theorem c10_split_partition_witness :
    (split_facing_pages ⟨[[1, 2, 3], [4, 5, 6]]⟩ 2 0).1.rows =
        [[(1 : ℚ), 2], [4, 5]] ∧
    (split_facing_pages ⟨[[1, 2, 3], [4, 5, 6]]⟩ 2 0).2.rows =
        [[(3 : ℚ)], [6]] := by
  have h := c10_split_partition ⟨[[1, 2, 3], [4, 5, 6]]⟩ 2
    (by decide) (by decide) (by decide)
  exact ⟨h.1.trans (by decide), h.2.1.trans (by decide)⟩

/-!  ## Helper lemmas  -/

theorem meanList_nonneg (l : List ℚ) (h : ∀ x ∈ l, 0 ≤ x) : 0 ≤ meanList l :=
  div_nonneg (List.sum_nonneg h) (Nat.cast_nonneg _)

theorem contourCurvature_nonneg (cv : CV) (w : ℕ) (c : List (ℤ × ℤ)) (q : ℚ)
    (h : contourCurvature cv w c = some q) : 0 ≤ q := by
  unfold contourCurvature at h
  split_ifs at h
  obtain ⟨a, -, rfl⟩ := Option.map_eq_some'.mp h
  exact mul_nonneg (abs_nonneg a) (Nat.cast_nonneg w)

/-!  ## C1 : curvature score normalization  -/

set_option maxRecDepth 100000 in
/-- C1 (counterexample): on an input whose three accepted text lines each
fit with curvature 20, `detect_curvature` returns the raw mean 20 — not
`min 1 (20/10) = 1` — so its result is not the mean divided by the
ceiling 10 and clamped, and it exceeds 1. -/
theorem c1_counterexample :
    detect_curvature_model cvCurv (allWhite 100 100) = 20 ∧
    min (1 : ℚ) (20 / 10) = 1 ∧ (20 : ℚ) ≠ 1 ∧ ¬ ((20 : ℚ) ≤ 1) := by
  refine ⟨by with_unfolding_all decide, by norm_num, by norm_num, by norm_num⟩

/-- C1 (amended): the clamped form holds for the stage scorer: the score
of `detect_curvature_lines` — which `detect_dewarp` returns as its
`curvature_score` — equals `min 1 (mean curvature / 10)` and always lies
in `[0, 1]`; `detect_curvature` in detection.py instead returns the raw
unclamped mean. -/
theorem c1_stage_score_clamped (cv : CV) (available : Bool) (mc : ℚ)
    (gray : Img) :
    (detect_curvature_lines_model cv gray).score =
      min 1 ((detect_curvature_lines_model cv gray).avg_curvature / 10) ∧
    0 ≤ (detect_curvature_lines_model cv gray).score ∧
    (detect_curvature_lines_model cv gray).score ≤ 1 ∧
    (detect_dewarp_model cv available mc gray).curvature_score =
      (detect_curvature_lines_model cv gray).score := by
  suffices h : (detect_curvature_lines_model cv gray).score =
      min 1 ((detect_curvature_lines_model cv gray).avg_curvature / 10) ∧
      0 ≤ (detect_curvature_lines_model cv gray).avg_curvature by
    refine ⟨h.1, ?_, ?_, rfl⟩
    · rw [h.1]
      exact le_min (by norm_num) (div_nonneg h.2 (by norm_num))
    · rw [h.1]
      exact min_le_left _ _
  simp only [detect_curvature_lines_model]
  split_ifs with h1 h2
  · exact ⟨by norm_num, le_refl 0⟩
  · exact ⟨by norm_num, le_refl 0⟩
  · refine ⟨rfl, ?_⟩
    apply meanList_nonneg
    intro x hx
    rw [List.mem_filterMap] at hx
    obtain ⟨c0, -, hc0⟩ := hx
    exact contourCurvature_nonneg _ _ _ _ hc0

/-!  ## C2 : sign of the line-based skew estimate  -/

/-- C2 (counterexample): a grayscale image on which the line detector
reports one accepted near-horizontal segment of external angle 2° makes
the STAGE estimator return +2, not the negated length-weighted mean −2:
the stage variant does not negate. -/
theorem c2_counterexample :
    (detect_skew_hough_stage cvSeg (allWhite 20 20) 15).angle ≠
      -(weightedMeanAngle (stagePairs cvSeg (allWhite 20 20) 15)) := by
  with_unfolding_all decide

/-- C2 (amended): when at least one near-horizontal segment is accepted
and the accepted total length is positive, the WHOLE-PAGE estimator
(detection.py `_detect_skew_hough`) returns the negation of the
length-weighted mean segment angle, while the STAGE estimator
(stages/deskew.py `detect_skew_hough`) returns that weighted mean
un-negated. -/
theorem c2_amended (cv : CV) (gray : Img) (ma : ℚ)
    (hh : 10 ≤ gray.height) (hw : 10 ≤ gray.width)
    (hW : wholePairs cv gray ma ≠ [])
    (hWt : 0 < totalLen (wholePairs cv gray ma))
    (hS : stagePairs cv gray ma ≠ [])
    (hSt : 0 < totalLen (stagePairs cv gray ma)) :
    (detect_skew_hough_whole cv gray ma).1 =
      -(weightedMeanAngle (wholePairs cv gray ma)) ∧
    (detect_skew_hough_stage cv gray ma).angle =
      weightedMeanAngle (stagePairs cv gray ma) := by
  have hlinesW : wholeLines cv gray ≠ [] := by
    intro h
    apply hW
    unfold wholePairs
    rw [h]
    rfl
  have hlinesS : stageLines cv gray ≠ [] := by
    intro h
    apply hS
    unfold stagePairs
    rw [h]
    rfl
  have hW' : wholeAccept cv (wholeLines cv gray) ma ≠ [] := hW
  have hS' : stageAccept cv (stageLines cv gray) ma ≠ [] := hS
  have hWt' : ¬ totalLen (wholeAccept cv (wholeLines cv gray) ma) ≤ 0 :=
    not_le.mpr hWt
  have hSt' : totalLen (stageAccept cv (stageLines cv gray) ma) ≠ 0 :=
    ne_of_gt hSt
  constructor
  · simp only [detect_skew_hough_whole]
    rw [if_neg (by omega), if_neg hlinesW, if_neg hW']
    simp only [lineAngleWhole]
    rw [if_neg hWt']
    rfl
  · simp only [detect_skew_hough_stage]
    rw [if_neg hlinesS, if_neg hS']
    simp only [lineAngleStage]
    rw [if_neg hSt']
    rfl

/-- C2 witness at a concrete image and collaborator: the whole-page angle
is the negated weighted mean, the stage angle the un-negated one. -/
theorem c2_witness :
    (detect_skew_hough_whole cvSeg (allWhite 20 20) 15).1 =
      -(weightedMeanAngle (wholePairs cvSeg (allWhite 20 20) 15)) ∧
    (detect_skew_hough_stage cvSeg (allWhite 20 20) 15).angle =
      weightedMeanAngle (stagePairs cvSeg (allWhite 20 20) 15) :=
  c2_amended cvSeg (allWhite 20 20) 15 (by decide) (by decide)
    (by with_unfolding_all decide) (by with_unfolding_all decide)
    (by with_unfolding_all decide) (by with_unfolding_all decide)

/-!  ## C3 : line-based skew confidence formula  -/

/-- C3 (counterexample): with one accepted segment (`n = 1`, `s = 0`) the
STAGE estimator reports confidence `0.7 + 0.3·(1/20) = 0.715`, not the
claimed `0.7·max(0, 1 − s/4) + 0.3·min(1, n/15) = 0.72`. -/
theorem c3_counterexample :
    (detect_skew_hough_stage cvSeg (allWhite 20 20) 15).confidence ≠
      min 1 (max 0 ((7/10) *
          max 0 (1 - houghStd cvSeg
            ((stagePairs cvSeg (allWhite 20 20) 15).map Prod.fst) / 4) +
        (3/10) * min 1
          (((stagePairs cvSeg (allWhite 20 20) 15).length : ℚ) / 15))) := by
  with_unfolding_all decide

/-- C3 (amended): with `n ≥ 1` accepted segments of standard deviation
`s` (`houghStd`, 0 when `n = 1`), the WHOLE-PAGE estimator's confidence
is exactly `0.7·max(0, 1 − s/4) + 0.3·min(1, n/15)` clamped to `[0, 1]`
as claimed; the STAGE estimator instead uses `1 − s/5`, `min(1, n/20)`
and no outer clamp. -/
theorem c3_amended (cv : CV) (gray : Img) (ma : ℚ)
    (hh : 10 ≤ gray.height) (hw : 10 ≤ gray.width)
    (hW : wholePairs cv gray ma ≠ [])
    (hS : stagePairs cv gray ma ≠ []) :
    (detect_skew_hough_whole cv gray ma).2 =
      min 1 (max 0 ((7/10) *
          max 0 (1 - houghStd cv ((wholePairs cv gray ma).map Prod.fst) / 4) +
        (3/10) * min 1 (((wholePairs cv gray ma).length : ℚ) / 15))) ∧
    (detect_skew_hough_stage cv gray ma).confidence =
      (7/10) * max 0 (1 - houghStd cv
          ((stagePairs cv gray ma).map Prod.fst) / 5) +
      (3/10) * min 1 (((stagePairs cv gray ma).length : ℚ) / 20) := by
  have hlinesW : wholeLines cv gray ≠ [] := by
    intro h
    apply hW
    unfold wholePairs
    rw [h]
    rfl
  have hlinesS : stageLines cv gray ≠ [] := by
    intro h
    apply hS
    unfold stageLines at h
    unfold stagePairs
    rw [show stageLines cv gray = [] from h]
    rfl
  have hW' : wholeAccept cv (wholeLines cv gray) ma ≠ [] := hW
  have hS' : stageAccept cv (stageLines cv gray) ma ≠ [] := hS
  constructor
  · simp only [detect_skew_hough_whole]
    rw [if_neg (by omega), if_neg hlinesW, if_neg hW']
    simp only [houghConfWhole]
    ring_nf
    rfl
  · simp only [detect_skew_hough_stage]
    rw [if_neg hlinesS, if_neg hS']
    simp only [houghConfStage]
    ring_nf
    rfl

/-- C3 witness at a concrete image and collaborator. -/
theorem c3_witness :
    (detect_skew_hough_whole cvSeg (allWhite 20 20) 15).2 =
      min 1 (max 0 ((7/10) *
          max 0 (1 - houghStd cvSeg
            ((wholePairs cvSeg (allWhite 20 20) 15).map Prod.fst) / 4) +
        (3/10) * min 1
          (((wholePairs cvSeg (allWhite 20 20) 15).length : ℚ) / 15))) ∧
    (detect_skew_hough_stage cvSeg (allWhite 20 20) 15).confidence =
      (7/10) * max 0 (1 - houghStd cvSeg
          ((stagePairs cvSeg (allWhite 20 20) 15).map Prod.fst) / 5) +
      (3/10) * min 1
        (((stagePairs cvSeg (allWhite 20 20) 15).length : ℚ) / 20) :=
  c3_amended cvSeg (allWhite 20 20) 15 (by decide) (by decide)
    (by with_unfolding_all decide) (by with_unfolding_all decide)

/-!  ## C4 : whole-page skew guardrails  -/

/-- C4: `detect_skew_angle` returns 0 whenever a guardrail fires —
near-zero contrast (`std < 5`, i.e. variance < 25), confidence < 0.40,
`|angle| > 5` with confidence < 0.70, or `|angle| > 10` — and otherwise
returns the estimated angle; hence its result always has magnitude at
most 10. -/
theorem c4_guardrails (cv : CV) (image : Img) :
    ((resizeForAnalysis cv image 1500).1.variance2d < 25 ∨
      (detect_skew_hough_whole cv (resizeForAnalysis cv image 1500).1 15).2 < 2/5 ∨
      (5 < |(detect_skew_hough_whole cv (resizeForAnalysis cv image 1500).1 15).1| ∧
        (detect_skew_hough_whole cv (resizeForAnalysis cv image 1500).1 15).2 < 7/10) ∨
      10 < |(detect_skew_hough_whole cv (resizeForAnalysis cv image 1500).1 15).1| →
      detect_skew_angle_model cv image = 0) ∧
    (¬ ((resizeForAnalysis cv image 1500).1.variance2d < 25 ∨
      (detect_skew_hough_whole cv (resizeForAnalysis cv image 1500).1 15).2 < 2/5 ∨
      (5 < |(detect_skew_hough_whole cv (resizeForAnalysis cv image 1500).1 15).1| ∧
        (detect_skew_hough_whole cv (resizeForAnalysis cv image 1500).1 15).2 < 7/10) ∨
      10 < |(detect_skew_hough_whole cv (resizeForAnalysis cv image 1500).1 15).1|) →
      detect_skew_angle_model cv image =
        (detect_skew_hough_whole cv (resizeForAnalysis cv image 1500).1 15).1) ∧
    |detect_skew_angle_model cv image| ≤ 10 := by
  simp only [detect_skew_angle_model]
  split_ifs with h1 h2 h3 h4
  · exact ⟨fun _ => rfl, fun hn => absurd (Or.inl h1) hn, by norm_num⟩
  · exact ⟨fun _ => rfl, fun hn => absurd (Or.inr (Or.inl h2)) hn, by norm_num⟩
  · exact ⟨fun _ => rfl, fun hn => absurd (Or.inr (Or.inr (Or.inl h3))) hn,
      by norm_num⟩
  · exact ⟨fun _ => rfl, fun hn => absurd (Or.inr (Or.inr (Or.inr h4))) hn,
      by norm_num⟩
  · refine ⟨fun hg => ?_, fun _ => rfl, by push_neg at h4; linarith [h4]⟩
    rcases hg with hg | hg | hg | hg
    · exact absurd hg h1
    · exact absurd hg h2
    · exact absurd hg h3
    · exact absurd hg h4

/-- C4 witness: on a blank (zero-contrast) image the contrast guardrail
fires and the detector returns 0, whose magnitude is at most 10. -/
theorem c4_witness :
    detect_skew_angle_model cvTriv (allWhite 2 2) = 0 ∧
    |detect_skew_angle_model cvTriv (allWhite 2 2)| ≤ 10 :=
  ⟨(c4_guardrails cvTriv (allWhite 2 2)).1
      (Or.inl (by with_unfolding_all decide)),
   (c4_guardrails cvTriv (allWhite 2 2)).2.2⟩

/-!  ## C8 : deskew fusion formula  -/

set_option maxRecDepth 400000 in
/-- C8 (counterexample): with a hough sub-result `(angle 10, confidence
1)` and a projection sub-result `(0, 0)` the fused angle is 10, not the
fixed-weight average `0.55·10 + 0.45·0 = 5.5`; driven end-to-end through
`detect_deskew` by a collaborator reporting twenty consistent segments of
external angle 10° on a page whose projection profile is blank. -/
theorem c8_counterexample :
    (detect_skew_hough_stage cvC8 (allWhite 1 1) 15) = ⟨10, 1⟩ ∧
    (detect_skew_projection cvC8 (allWhite 1 1) 15).confidence = 0 ∧
    (detect_deskew_model cvC8 (allWhite 1 1) (1/2) 15).angle = 10 ∧
    (11/20 : ℚ) * (detect_skew_hough_stage cvC8 (allWhite 1 1) 15).angle +
      (9/20) * (detect_skew_projection cvC8 (allWhite 1 1) 15).angle = 11/2 ∧
    (10 : ℚ) ≠ 11/2 := by
  with_unfolding_all decide

/-- C8 (amended): `detect_deskew` fuses the two sub-results by the
confidence-weighted form `Σ angleᵢ·confᵢ·wᵢ / Σ confᵢ·wᵢ` with the fixed
weights 0.55/0.45 — which reduces to the claimed fixed-weight average of
the angles exactly when the two sub-confidences are equal and nonzero —
while the fused confidence is the fixed-weight average
`0.55·conf_hough + 0.45·conf_proj` as claimed, and an out-of-range fused
angle is clamped to `sign·max_angle` with the confidence halved. -/
theorem c8_amended (cv : CV) (gray : Img) (mi ma : ℚ) (hough proj : SkewSub) :
    (detect_deskew_model cv gray mi ma).angle =
      round3 (deskewClamp (deskewFusedPre (detect_skew_hough_stage cv gray ma)
        (detect_skew_projection cv gray ma)) ma).1 ∧
    (detect_deskew_model cv gray mi ma).confidence =
      min 1 (deskewClamp (deskewFusedPre (detect_skew_hough_stage cv gray ma)
        (detect_skew_projection cv gray ma)) ma).2 ∧
    (hough.confidence * (11/20) + proj.confidence * (9/20) ≠ 0 →
      (deskewFusedPre hough proj).1 =
        (hough.angle * hough.confidence * (11/20) +
          proj.angle * proj.confidence * (9/20)) /
          (hough.confidence * (11/20) + proj.confidence * (9/20))) ∧
    (deskewFusedPre hough proj).2 =
      hough.confidence * (11/20) + proj.confidence * (9/20) ∧
    (hough.confidence = proj.confidence → hough.confidence ≠ 0 →
      (deskewFusedPre hough proj).1 =
        (11/20) * hough.angle + (9/20) * proj.angle) ∧
    (ma < |(deskewFusedPre hough proj).1| →
      deskewClamp (deskewFusedPre hough proj) ma =
        (qsign (deskewFusedPre hough proj).1 * ma,
         (deskewFusedPre hough proj).2 * (1/2))) ∧
    (¬ ma < |(deskewFusedPre hough proj).1| →
      deskewClamp (deskewFusedPre hough proj) ma =
        deskewFusedPre hough proj) := by
  refine ⟨rfl, rfl, ?_, ?_, ?_, ?_, ?_⟩
  · intro ht
    simp only [deskewFusedPre]
    rw [if_neg ht]
  · simp only [deskewFusedPre]
    split_ifs with ht
    · rw [ht]
    · rfl
  · intro hconf hnz
    simp only [deskewFusedPre, ← hconf]
    have ht : hough.confidence * (11/20) + hough.confidence * (9/20) ≠ 0 := by
      intro h0
      apply hnz
      linarith
    rw [if_neg ht, div_eq_iff ht]
    ring
  · intro hcl
    simp only [deskewClamp]
    rw [if_pos hcl]
  · intro hcl
    simp only [deskewClamp]
    rw [if_neg hcl]

/-- C8 witness: equal nonzero sub-confidences reduce the fused angle to
the fixed-weight average of the two sub-angles. -/
theorem c8_witness :
    (deskewFusedPre ⟨3, 1/2⟩ ⟨1, 1/2⟩).1 = (11/20 : ℚ) * 3 + (9/20) * 1 ∧
    (deskewFusedPre ⟨3, 1/2⟩ ⟨1, 1/2⟩).2 =
      (1/2 : ℚ) * (11/20) + (1/2) * (9/20) :=
  ⟨(c8_amended cvTriv (allWhite 1 1) (1/2) 15 ⟨3, 1/2⟩ ⟨1, 1/2⟩).2.2.2.2.1
      rfl (by norm_num),
   (c8_amended cvTriv (allWhite 1 1) (1/2) 15 ⟨3, 1/2⟩ ⟨1, 1/2⟩).2.2.2.1⟩

/-!  ## C5 : rotation classifier combination  -/

theorem bestRotation_le (cand : RotScores) (r : Rot) :
    cand.get r ≤ cand.get (bestRotation cand) := by
  simp only [bestRotation]
  split_ifs <;> cases r <;> simp_all [RotScores.get] <;> linarith

theorem methodVal_le_best (x y z : ℚ) (m : RMethod) :
    methodVal x y z m ≤ methodVal x y z (bestMethod x y z) := by
  simp only [bestMethod]
  split_ifs <;> cases m <;> simp_all [methodVal] <;> linarith

theorem bestRotation_only90 (v : ℚ) (hv : 0 < v) :
    bestRotation ⟨0, v, 0, 0⟩ = Rot.r90 := by
  simp only [bestRotation]
  split_ifs
  all_goals simp_all
  all_goals linarith

/-- C5: the rotation classifier combines the three sub-scorer maps with
fixed weights text 0.5, edge 0.3, content 0.2; the returned rotation
attains the maximum weighted sum, the confidence is that winning sum
capped at 1, and `method_used` attains the largest weighted contribution
to the winner; in particular a lone sub-signal of score `q ∈ (0, 1]` at
90° yields rotation 90 with confidence `q` times that sub-scorer's
weight. -/
theorem c5_rotation (cv : CV) (gray : Img) (t e c : RotScores) :
    detect_rotation_model cv gray =
      detect_rotation_combine (textOrientation cv gray)
        (edgeOrientation cv gray) (contentOrientation cv gray) ∧
    (∀ r : Rot, (rotCandidates t e c).get r =
      t.get r * (1/2) + e.get r * (3/10) + c.get r * (1/5)) ∧
    (∀ r : Rot, (rotCandidates t e c).get r ≤
      (rotCandidates t e c).get (detect_rotation_combine t e c).rotation) ∧
    (detect_rotation_combine t e c).confidence =
      min 1 ((rotCandidates t e c).get
        (detect_rotation_combine t e c).rotation) ∧
    (∀ m : RMethod,
      rotContrib t e c (detect_rotation_combine t e c).rotation m ≤
      rotContrib t e c (detect_rotation_combine t e c).rotation
        (detect_rotation_combine t e c).method_used) ∧
    (∀ q : ℚ, 0 < q → q ≤ 1 →
      ((detect_rotation_combine ⟨0, q, 0, 0⟩ RotScores.zero
          RotScores.zero).rotation = Rot.r90 ∧
       (detect_rotation_combine ⟨0, q, 0, 0⟩ RotScores.zero
          RotScores.zero).confidence = q * (1/2)) ∧
      ((detect_rotation_combine RotScores.zero ⟨0, q, 0, 0⟩
          RotScores.zero).rotation = Rot.r90 ∧
       (detect_rotation_combine RotScores.zero ⟨0, q, 0, 0⟩
          RotScores.zero).confidence = q * (3/10)) ∧
      ((detect_rotation_combine RotScores.zero RotScores.zero
          ⟨0, q, 0, 0⟩).rotation = Rot.r90 ∧
       (detect_rotation_combine RotScores.zero RotScores.zero
          ⟨0, q, 0, 0⟩).confidence = q * (1/5))) := by
  refine ⟨rfl, ?_, ?_, rfl, ?_, ?_⟩
  · intro r
    cases r <;> rfl
  · intro r
    exact bestRotation_le (rotCandidates t e c) r
  · intro m
    exact methodVal_le_best _ _ _ m
  · intro q hq hq1
    have h1 : rotCandidates ⟨0, q, 0, 0⟩ RotScores.zero RotScores.zero
        = ⟨0, q * (1/2), 0, 0⟩ := by
      simp [rotCandidates, RotScores.zero]
    have h2 : rotCandidates RotScores.zero ⟨0, q, 0, 0⟩ RotScores.zero
        = ⟨0, q * (3/10), 0, 0⟩ := by
      simp [rotCandidates, RotScores.zero]
    have h3 : rotCandidates RotScores.zero RotScores.zero ⟨0, q, 0, 0⟩
        = ⟨0, q * (1/5), 0, 0⟩ := by
      simp [rotCandidates, RotScores.zero]
    refine ⟨⟨?_, ?_⟩, ⟨?_, ?_⟩, ⟨?_, ?_⟩⟩
    · show bestRotation (rotCandidates ⟨0, q, 0, 0⟩ RotScores.zero
        RotScores.zero) = Rot.r90
      rw [h1]
      exact bestRotation_only90 _ (by linarith)
    · show min 1 ((rotCandidates ⟨0, q, 0, 0⟩ RotScores.zero
        RotScores.zero).get (bestRotation (rotCandidates ⟨0, q, 0, 0⟩
          RotScores.zero RotScores.zero))) = q * (1/2)
      rw [h1, bestRotation_only90 _ (by linarith)]
      simp only [RotScores.get]
      exact min_eq_right (by linarith)
    · show bestRotation (rotCandidates RotScores.zero ⟨0, q, 0, 0⟩
        RotScores.zero) = Rot.r90
      rw [h2]
      exact bestRotation_only90 _ (by linarith)
    · show min 1 ((rotCandidates RotScores.zero ⟨0, q, 0, 0⟩
        RotScores.zero).get (bestRotation (rotCandidates RotScores.zero
          ⟨0, q, 0, 0⟩ RotScores.zero))) = q * (3/10)
      rw [h2, bestRotation_only90 _ (by linarith)]
      simp only [RotScores.get]
      exact min_eq_right (by linarith)
    · show bestRotation (rotCandidates RotScores.zero RotScores.zero
        ⟨0, q, 0, 0⟩) = Rot.r90
      rw [h3]
      exact bestRotation_only90 _ (by linarith)
    · show min 1 ((rotCandidates RotScores.zero RotScores.zero
        ⟨0, q, 0, 0⟩).get (bestRotation (rotCandidates RotScores.zero
          RotScores.zero ⟨0, q, 0, 0⟩))) = q * (1/5)
      rw [h3, bestRotation_only90 _ (by linarith)]
      simp only [RotScores.get]
      exact min_eq_right (by linarith)

/-- C5 witness: with a lone text-scorer signal of 1/2 at 90° the
classifier returns rotation 90 with confidence `1/2 · 0.5 = 1/4`. -/
theorem c5_witness :
    (detect_rotation_combine ⟨0, 1/2, 0, 0⟩ RotScores.zero
        RotScores.zero).rotation = Rot.r90 ∧
    (detect_rotation_combine ⟨0, 1/2, 0, 0⟩ RotScores.zero
        RotScores.zero).confidence = (1/2) * (1/2) :=
  ((c5_rotation cvTriv (allWhite 1 1) RotScores.zero RotScores.zero
      RotScores.zero).2.2.2.2.2 (1/2) (by norm_num) (by norm_num)).1

/-!  ## C6 : facing-pages weak gate  -/

/-- C6: any image with aspect ratio `width/height < 1.05` makes
`detect_facing_pages` return false immediately, regardless of pixel
contents (i.e. for every collaborator behaviour). -/
theorem c6_weak_gate (cv : CV) (image : Img) (_hh : 1 ≤ image.height)
    (hr : (image.width : ℚ) / (image.height : ℚ) < 21/20) :
    detect_facing_pages_model cv image = some false := by
  simp only [detect_facing_pages_model]
  rw [if_pos hr]

/-- C6 witness: a square all-white image (ratio 1) is gated to false. -/
theorem c6_witness : detect_facing_pages_model cvTriv (allWhite 1 1) = some false :=
  c6_weak_gate cvTriv (allWhite 1 1) (by decide) (by with_unfolding_all decide)

/-!  ## C7 : coordinate invariants of content bounds and gutter  -/

theorem iclamp_mem (lo hi v : ℤ) (h : lo ≤ hi) :
    lo ≤ iclamp lo hi v ∧ iclamp lo hi v ≤ hi := by
  unfold iclamp
  omega

/-- C7: whenever `detect_content_bounds` returns a box on a nonempty
image, the box satisfies `0 ≤ x`, `0 ≤ y`, `width, height ≥ 1`,
`x + width ≤ w` and `y + height ≤ h`; and `find_gutter_position` always
returns an x with `⌊0.03·w⌋ ≤ x ≤ ⌊0.97·w⌋` (hence `0 ≤ x ≤ w`) — in both
cases for every collaborator behaviour, so in particular regardless of
whether internal downscaling occurred. -/
theorem c7_bounds_invariant (cv : CV) (image : Img)
    (hw : 1 ≤ image.width) (hh : 1 ≤ image.height) :
    (∀ b : Bounds, detect_content_bounds_model cv image = some b →
      0 ≤ b.x ∧ 0 ≤ b.y ∧ 1 ≤ b.width ∧ 1 ≤ b.height ∧
      b.x + b.width ≤ (image.width : ℤ) ∧
      b.y + b.height ≤ (image.height : ℤ)) ∧
    ((image.width * 3 / 100 : ℕ) : ℤ) ≤ find_gutter_model cv image ∧
    find_gutter_model cv image ≤ ((image.width * 97 / 100 : ℕ) : ℤ) ∧
    0 ≤ find_gutter_model cv image ∧
    find_gutter_model cv image ≤ (image.width : ℤ) := by
  have hw' : (1 : ℤ) ≤ (image.width : ℤ) := by exact_mod_cast hw
  have hh' : (1 : ℤ) ≤ (image.height : ℤ) := by exact_mod_cast hh
  constructor
  · intro b hb
    simp only [detect_content_bounds_model] at hb
    split_ifs at hb <;>
      first
        | exact Option.noConfusion hb
        | (injection hb with hb
           subst hb
           dsimp only
           omega)
  · have hg : find_gutter_model cv image = ((image.width / 2 : ℕ) : ℤ) ∨
        ∃ v : ℤ, find_gutter_model cv image =
          iclamp ((image.width * 3 / 100 : ℕ) : ℤ)
            ((image.width * 97 / 100 : ℕ) : ℤ) v := by
      simp only [find_gutter_model]
      split_ifs
      · exact Or.inl rfl
      · exact Or.inr ⟨_, rfl⟩
    have hle : ((image.width * 3 / 100 : ℕ) : ℤ) ≤
        ((image.width * 97 / 100 : ℕ) : ℤ) := by
      have : image.width * 3 / 100 ≤ image.width * 97 / 100 :=
        Nat.div_le_div_right (Nat.mul_le_mul_left _ (by omega))
      exact_mod_cast this
    rcases hg with hg | ⟨v, hg⟩
    · rw [hg]
      have h3 : image.width * 3 / 100 ≤ image.width / 2 := by omega
      have h97 : image.width / 2 ≤ image.width * 97 / 100 := by omega
      have hwd : image.width / 2 ≤ image.width := by omega
      refine ⟨by exact_mod_cast h3, by exact_mod_cast h97, by positivity, ?_⟩
      exact_mod_cast hwd
    · rw [hg]
      obtain ⟨hlo, hhi⟩ := iclamp_mem _ _ v hle
      have h97w : image.width * 97 / 100 ≤ image.width := by omega
      refine ⟨hlo, hhi, le_trans (by positivity) hlo, le_trans hhi ?_⟩
      exact_mod_cast h97w

/-- C7 witness: on a tiny all-white image the gutter locator returns the
image-centre column 2, inside `[⌊0.03·5⌋, ⌊0.97·5⌋] = [0, 4]`, and the
content-bounds detector reports no box. -/
theorem c7_witness :
    find_gutter_model cvTriv (allWhite 5 5) = 2 ∧
    0 ≤ find_gutter_model cvTriv (allWhite 5 5) ∧
    find_gutter_model cvTriv (allWhite 5 5) ≤ 5 ∧
    detect_content_bounds_model cvTriv (allWhite 5 5) = none :=
  ⟨by with_unfolding_all decide,
   (c7_bounds_invariant cvTriv (allWhite 5 5) (by decide) (by decide)).2.2.2.1,
   by exact_mod_cast (c7_bounds_invariant cvTriv (allWhite 5 5) (by decide)
      (by decide)).2.2.2.2,
   by with_unfolding_all decide⟩

/-!  ## C9 : blank-input neutrality  -/

set_option maxRecDepth 400000 in
/-- C9 (code bug): on the all-white 3×2 image (width 3, height 2) —
which passes the aspect gate (3/2 ≥ 1.05) and whose analysis window is
too narrow for the valley ladder — `detect_facing_pages` computes
`center_width = w_s // 5 = 0`, slices an empty centre strip, and
`np.max` over its per-column means raises an uncaught `ValueError`
(modelled as `none`) instead of returning the claimed `False`. -/
theorem c9_blank_crash :
    detect_facing_pages_model cvTriv (allWhite 3 2) = none := by
  with_unfolding_all decide

end PageProc
